import Mathlib

/-!
Shallow embedding of the filestore-migrator core (src/methods.go and
src/store/gridfs.go) and proofs about the spec's claims.

Conventions:
* Go strings become `String`, Go booleans `Bool`, machine-independent
  counters `Nat`.
* Fallible Go calls (`(T, error)` returns) become `Except String T` or
  `T × Option StoreErr`; collaborator results (database responses,
  provider results, environment variables) are passed in as explicit
  parameters, since the collaborators themselves are out of scope.
* The concurrency structure of `MigrateStore` (an unbuffered `oneDone`
  channel, one send per worker, receives performed by the scheduling
  loop) is modelled by counting channel operations, which is what
  determines admission and termination.
-/

namespace FilestoreMigrator

/-- Sub-document `rocketchat.AmazonS3` as used in src/methods.go
(`file.AmazonS3 = rocketchat.AmazonS3{Path: objectPath}`): a single
`Path` field. -/
structure AmazonS3 where
  path : String
deriving DecidableEq

/-- Sub-document `rocketchat.GoogleStorage` as used in src/methods.go:
a single `Path` field. -/
structure GoogleStorage where
  path : String
deriving DecidableEq

/-- The catalog record `rocketchat.File`, with the fields src/methods.go
reads and writes: `ID`, `Name`, `Type`, `Rid`, `UserID`, `Complete`,
`Store`, `URL`, `Path`, `AmazonS3`, `GoogleStorage`, and the
`uploadedAt` timestamp the candidate query filters on (modelled as a
`Nat`). -/
structure File where
  id : String
  name : String
  type : String
  rid : String
  userId : String
  complete : Bool
  store : String
  url : String
  path : String
  uploadedAt : Nat
  amazonS3 : AmazonS3
  googleStorage : GoogleStorage
deriving DecidableEq

/-- Errors a storage provider's `Download` can return: the sentinel
`store.ErrNotFound` or any other error (carried as its message). -/
inductive StoreErr where
  | errNotFound
  | other (e : String)
deriving DecidableEq

/-- Embeds Go's `strings.ToLower` on the ASCII store names used here:
lowercases every character. (Written over the character list because
`String.toLower` does not reduce in the kernel.) -/
def lowerGo (s : String) : String := String.mk (s.data.map Char.toLower)

/-- Embeds `getObjectPath` (src/methods.go lines 249-265): switch on
the store name building `uniqueID/{lowercased name}/...`, then the
`FileSystem` override that collapses the path to just the file id. -/
def getObjectPath (storeName uniqueID destType : String) (file : File) : String :=
  let objectPath :=
    if storeName = "Uploads" then
      uniqueID ++ "/" ++ lowerGo storeName ++ "/" ++ file.rid ++ "/" ++ file.userId ++ "/" ++ file.id
    else if storeName = "Avatars" then
      uniqueID ++ "/" ++ lowerGo storeName ++ "/" ++ file.userId
    else ""
  if destType = "FileSystem" then file.id else objectPath

/-- Embeds the two in-worker mutations of `MigrateStore`
(src/methods.go lines 196-202) performed before `getObjectPath`:
`file.Rid = "undefined"` when empty and the store is Uploads, and
`file.UserID = "undefined"` when empty. -/
def applyUndefinedDefaults (storeName : String) (file : File) : File :=
  let f1 := if file.rid = "" ∧ storeName = "Uploads" then { file with rid := "undefined" } else file
  if f1.userId = "" then { f1 with userId := "undefined" } else f1

/-- The destination object path as the `MigrateStore` pipeline computes
it: the undefined-defaults mutations followed by `getObjectPath`. -/
def migrateStoreObjectPath (storeName uniqueID destType : String) (file : File) : String :=
  getObjectPath storeName uniqueID destType (applyUndefinedDefaults storeName file)

/-- Embeds `fixFileForUpload` (src/methods.go lines 267-299): the switch
on the destination store type populates that backend's sub-document with
the object path, clears the other backend's sub-document and returns its
field name as the `$unset` target; the `FileSystem` and `default` cases
touch neither sub-document and return an empty unset. Afterwards `URL`,
`Path` and `Store` are rewritten unconditionally. Returns the mutated
file together with the unset field name. -/
def fixFileForUpload (destType storeName : String) (file : File) (objectPath : String) : File × String :=
  let fu : File × String :=
    if destType = "AmazonS3" then
      ({ file with amazonS3 := { path := objectPath }, googleStorage := { path := "" } }, "GoogleStorage")
    else if destType = "GoogleCloudStorage" then
      ({ file with googleStorage := { path := objectPath }, amazonS3 := { path := "" } }, "AmazonS3")
    else
      (file, "")
  let ufsPath := "/ufs/" ++ destType ++ ":" ++ storeName ++ "/" ++ file.id ++ "/" ++ file.name
  ({ fu.1 with url := ufsPath, path := ufsPath, store := destType ++ ":" ++ storeName }, fu.2)

/-- Embeds the candidate-selection query built in `getFiles`
(src/methods.go lines 109-115): the record's `store` field must equal
`{source store type}:{store name}`, and when a file offset is set the
record's `uploadedAt` must be at or after it (`$gte`). -/
def candidateQuery (sourceType storeName : String) (fileOffset : Option Nat) (file : File) : Bool :=
  file.store == sourceType ++ ":" ++ storeName &&
    (match fileOffset with
     | none => true
     | some t => decide (t ≤ file.uploadedAt))

/-! Concurrency model of the `MigrateStore` scheduling loop
(src/methods.go lines 165-244).  Every worker goroutine sends exactly
one value, on `oneDone` when it finishes (skipped or migrated) or on
`errChan` when it fails; `oneDone` is unbuffered.  The loop body
receives from `oneDone` exactly when the loop index equals
`maxConcurrency` (the `if i == maxConcurrency` guard), and after the
loop the function performs one final receive from `oneDone`.  We count
these channel operations: the number of completions consumed before a
worker is launched bounds from below how many workers can still be
mid-transfer, and the total number of receives bounds when the
function can return. -/

/-- Receives from `oneDone` performed by the guard of loop iteration
`i`: one exactly when `i == maxConcurrency`, as in the code. -/
def loopReceivesAt (maxConcurrency i : Nat) : Nat :=
  if i = maxConcurrency then 1 else 0

/-- Total receives from `oneDone` performed by the scheduling loop over
iterations `0, ..., numFiles - 1`. -/
def loopReceivesTotal (maxConcurrency numFiles : Nat) : Nat :=
  ((List.range numFiles).map (loopReceivesAt maxConcurrency)).sum

/-- Completion signals consumed before worker `i` (0-based) is
launched: the guards of iterations `0, ..., i` all run first (iteration
`i`'s guard precedes its own launch). -/
def receivesBeforeLaunch (maxConcurrency i : Nat) : Nat :=
  loopReceivesTotal maxConcurrency i + loopReceivesAt maxConcurrency i

/-- Workers that can simultaneously be mid-transfer just after worker
`i` is launched: the `i + 1` launched workers minus those whose
completion signal the loop has consumed. -/
def inFlightAfterLaunch (maxConcurrency i : Nat) : Nat :=
  i + 1 - receivesBeforeLaunch maxConcurrency i

/-- Total receives from `oneDone` that `MigrateStore` performs before
returning when no worker reports an error: the loop receives plus the
single `<-oneDone` after the loop. -/
def totalReceives (maxConcurrency numFiles : Nat) : Nat :=
  loopReceivesTotal maxConcurrency numFiles + 1

/-- In an error-free run each of the `numFiles` workers sends exactly
one signal on `oneDone`; `MigrateStore`'s final receive blocks forever
when fewer signals are ever sent than receives are performed. -/
def migrateStoreFinalWaitBlocked (maxConcurrency numFiles : Nat) : Bool :=
  numFiles < totalReceives maxConcurrency numFiles

/-! Sequential structure of `getFiles` and the `MigrateStore` prelude. -/

/-- Errors the catalog `Find` call can produce, distinguishing the
driver sentinel `mongo.ErrNoDocuments` that `getFiles` compares
against. -/
inductive FindErr where
  | errNoDocuments
  | other (e : String)
deriving DecidableEq

/-- Results of the external catalog calls `getFiles` makes, in program
order: `connectDB`, the `rocketchat_settings` uniqueID lookup, and the
candidate `Find`.  They are inputs to the embedding because the
database is an external collaborator. -/
structure CatalogResponses where
  connect : Except String Unit
  uniqueID : Except String String
  find : Except FindErr (List File)

/-- Observable steps of a `MigrateStore` run, in the order the code
performs them: connecting to the catalog, reading the uniqueID
namespace setting, running the candidate query, and launching worker
goroutines. -/
inductive Event where
  | connectDB
  | readNamespace
  | findCandidates
  | launchWorker (i : Nat)
deriving DecidableEq

/-- Embeds `getFiles` (src/methods.go lines 65-131): store-name
validation, then connect, then the uniqueID settings read, then the
candidate query, whose `mongo.ErrNoDocuments` outcome is mapped to the
error "No files found".  Returns the events performed alongside the
result. -/
def getFiles (storeName : String) (cat : CatalogResponses) : List Event × Except String (List File) :=
  if storeName = "" then ([], .error "no store Name")
  else if storeName ≠ "Uploads" ∧ storeName ≠ "Avatars" then ([], .error "Invalid store Name")
  else
    match cat.connect with
    | .error e => ([.connectDB], .error e)
    | .ok _ =>
      match cat.uniqueID with
      | .error e => ([.connectDB, .readNamespace], .error e)
      | .ok _ =>
        match cat.find with
        | .error .errNoDocuments => ([.connectDB, .readNamespace, .findCandidates], .error "No files found")
        | .error (.other e) => ([.connectDB, .readNamespace, .findCandidates], .error e)
        | .ok files => ([.connectDB, .readNamespace, .findCandidates], .ok files)

/-- Embeds `strconv.Atoi`: an optional sign followed by at least one
decimal digit; any other input is rejected.  Defined over the character
list so it evaluates in the kernel. -/
def atoi (s : String) : Option Int :=
  let core : List Char → Option Nat := fun ds =>
    if ds ≠ [] ∧ ds.all Char.isDigit then
      some (ds.foldl (fun acc d => 10 * acc + (d.toNat - 48)) 0)
    else none
  match s.data with
  | '-' :: cs => (core cs).map (fun n => -(n : Int))
  | '+' :: cs => (core cs).map (fun n => (n : Int))
  | cs => (core cs).map (fun n => (n : Int))

/-- Embeds the sequential skeleton of `MigrateStore` (src/methods.go
lines 133-247): the nil-store guard, then `getFiles` (connect,
namespace read, candidate query), then — only after that — the
`MAX_CONCURRENCY` environment lookup and `strconv.Atoi` parse, and
finally the loop launching one worker per candidate.  `env` is the
value of `MAX_CONCURRENCY` (`none` when unset).  The result is the
events performed paired with the function's return value; a successful
return is a bare `Except.ok ()`, mirroring the Go signature
`func (m *Migrate) MigrateStore() error`, which carries no counts. -/
def migrateStoreTrace (sourceBound destBound : Bool) (storeName : String)
    (cat : CatalogResponses) (env : Option String) : List Event × Except String Unit :=
  if sourceBound = false ∨ destBound = false then
    ([], .error "For MigrateStore both a source and destionation store must be provided")
  else
    match getFiles storeName cat with
    | (evs, .error e) => (evs, .error e)
    | (evs, .ok files) =>
      match env with
      | some v =>
        match atoi v with
        | none => (evs, .error "invalid syntax")
        | some _ => (evs ++ (List.range files.length).map Event.launchWorker, .ok ())
      | none => (evs ++ (List.range files.length).map Event.launchWorker, .ok ())

/-! Per-record worker pipelines. -/

/-- Why a record was skipped: the `!file.Complete` check, the
"No corresponding file" branch (fetch reported not-found, or another
fetch error tolerated by the skip-errors flag), or `UploadAll`'s
"Failed to locate" branch for an absent staged file. -/
inductive SkipReason where
  | incomplete
  | noCorrespondingFile
  | localFileMissing
deriving DecidableEq

/-- Per-record outcome: migrated (the worker ran to completion),
skipped, or a fatal error sent on `errChan` (which aborts the run via
the panicking listener goroutine). -/
inductive RecordOutcome where
  | migrated
  | skipped (reason : SkipReason)
  | fatal (e : String)
deriving DecidableEq

/-- Everything one `MigrateStore` worker goroutine does to a record:
its outcome, whether `sourceStore.Download` was attempted, the
`(objectPath, localPath, contentType)` triple passed to
`destinationStore.Upload` when it was called, and the
`($set file, $unset field)` pair passed to `UpdateOne` when it was
called. -/
structure WorkerRun where
  outcome : RecordOutcome
  downloadAttempted : Bool
  pushed : Option (String × String × String)
  updateAttempt : Option (File × String)
deriving DecidableEq

/-- Embeds the `MigrateStore` worker goroutine body (src/methods.go
lines 173-236): skip when `!file.Complete`; on a download error, skip
when it is `store.ErrNotFound` or the skip-errors flag is set,
otherwise fatal; then apply the undefined defaults, compute the object
path, upload (fatal on error), run `fixFileForUpload` and update the
catalog record (fatal on error).  `download` is the source store's
result, `pushErr` and `updateErr` the collaborators' outcomes for the
upload and the `UpdateOne`. -/
def migrateStoreWorker (skipErrors : Bool) (storeName uniqueID destType : String)
    (file : File) (download : String × Option StoreErr)
    (pushErr : Option String) (updateErr : Option String) : WorkerRun :=
  if file.complete = false then
    ⟨.skipped .incomplete, false, none, none⟩
  else
    match download with
    | (_, some StoreErr.errNotFound) =>
      ⟨.skipped .noCorrespondingFile, true, none, none⟩
    | (_, some (StoreErr.other e)) =>
      if skipErrors then ⟨.skipped .noCorrespondingFile, true, none, none⟩
      else ⟨.fatal e, true, none, none⟩
    | (downloadedPath, none) =>
      let f1 := applyUndefinedDefaults storeName file
      let objectPath := getObjectPath storeName uniqueID destType f1
      match pushErr with
      | some e => ⟨.fatal e, true, some (objectPath, downloadedPath, file.type), none⟩
      | none =>
        let fu := fixFileForUpload destType storeName f1 objectPath
        match updateErr with
        | some e => ⟨.fatal e, true, some (objectPath, downloadedPath, file.type), some fu⟩
        | none => ⟨.migrated, true, some (objectPath, downloadedPath, file.type), some fu⟩

/-- Embeds the `DownloadAll` worker goroutine body (src/methods.go
lines 408-441): skip when `!file.Complete`; attempt the download; on
error, skip when not-found or tolerated, otherwise fatal; no push and
no catalog mutation ever happen.  Returns the outcome and whether
`Download` was attempted. -/
def downloadAllWorker (skipErrors : Bool) (file : File)
    (download : String × Option StoreErr) : RecordOutcome × Bool :=
  if file.complete = false then (.skipped .incomplete, false)
  else
    match download.2 with
    | some StoreErr.errNotFound => (.skipped .noCorrespondingFile, true)
    | some (StoreErr.other e) =>
      if skipErrors then (.skipped .noCorrespondingFile, true) else (.fatal e, true)
    | none => (.migrated, true)

/-- Embeds one iteration of the `UploadAll` loop body (src/methods.go
lines 400-460): skip when the staged local file is absent, skip when
`!file.Complete`, otherwise compute the object path (note: without the
undefined defaulting `MigrateStore` applies), upload (fatal on error),
`fixFileForUpload`, and update the catalog (fatal on error).  Returns
the outcome, whether `Upload` was attempted, and the update applied. -/
def uploadAllStep (storeName uniqueID destType : String) (file : File)
    (localFileFound : Bool) (pushErr updateErr : Option String) :
    RecordOutcome × Bool × Option (File × String) :=
  if localFileFound = false then (.skipped .localFileMissing, false, none)
  else if file.complete = false then (.skipped .incomplete, false, none)
  else
    let objectPath := getObjectPath storeName uniqueID destType file
    match pushErr with
    | some e => (.fatal e, true, none)
    | none =>
      let fu := fixFileForUpload destType storeName file objectPath
      match updateErr with
      | some e => (.fatal e, true, none)
      | none => (.migrated, true, some fu)

/-- Embeds `GridFSProvider.Download` (src/store/gridfs.go lines 28-60):
the body is commented out behind a FIXME and the function returns the
empty path and a nil error for every input. -/
def GridFSProvider.Download (fileCollection : String) (file : File) : String × Option StoreErr :=
  ("", none)

/-- Sample catalog record used to instantiate universally quantified
theorems: a complete GridFS upload with empty room and user ids. -/
def sampleFile : File :=
  { id := "id1", name := "pic.png", type := "image/png", rid := "", userId := ""
    complete := true, store := "GridFS:Uploads", url := "/ufs/GridFS:Uploads/id1/pic.png"
    path := "/ufs/GridFS:Uploads/id1/pic.png", uploadedAt := 5
    amazonS3 := { path := "" }, googleStorage := { path := "" } }

/-- Sample record that still carries a populated AmazonS3 sub-document
from a previous backend. -/
def staleS3File : File :=
  { sampleFile with store := "AmazonS3:Uploads", amazonS3 := { path := "old/path" } }

/-! Helper lemmas shared between the claim theorems. -/

lemma loopReceivesTotal_succ (N f : Nat) :
    loopReceivesTotal N (f + 1) = loopReceivesTotal N f + loopReceivesAt N f := by
  simp [loopReceivesTotal, List.range_succ]

/-- Closed form of the loop's receive count: the guard fires on exactly
one iteration (index `N`), so the whole loop consumes one completion
signal when `N < numFiles` and none otherwise. -/
lemma loopReceivesTotal_eq (N F : Nat) :
    loopReceivesTotal N F = if N < F then 1 else 0 := by
  induction F with
  | zero => simp [loopReceivesTotal]
  | succ f ih =>
    rw [loopReceivesTotal_succ, ih, loopReceivesAt]
    split_ifs <;> omega

lemma applyUndefinedDefaults_id (storeName : String) (file : File) :
    (applyUndefinedDefaults storeName file).id = file.id := by
  simp only [applyUndefinedDefaults]
  split_ifs <;> rfl

lemma lowerGo_uploads : lowerGo "Uploads" = "uploads" := by decide

lemma lowerGo_avatars : lowerGo "Avatars" = "avatars" := by decide

lemma string_append_cancel_right (a b c : String) (h : a ++ c = b ++ c) : a = b := by
  have hd : a.data ++ c.data = b.data ++ c.data := by
    simpa [String.data_append] using congrArg String.data h
  cases a with
  | mk da =>
    cases b with
    | mk db => exact congrArg String.mk (List.append_cancel_right hd)

/-! Claim theorems. -/

/-- C1 (code bug): the scheduling loop's guard `if i == maxConcurrency`
consumes a completion signal on exactly one iteration, so the claimed
sliding-window bound fails as soon as there are at least
`maxConcurrency + 2` candidates.  Evaluated at the failing input
`MAX_CONCURRENCY = 1` with 3 candidates: before the third worker
(index 2) is launched only one completion has been consumed, so two
transfers can be in flight at once, exceeding the limit of 1, and the
claim's requirement of at least `i + 1 - N = 2` completions is not
met. -/
theorem migrateStore_inFlight_exceeds_limit :
    receivesBeforeLaunch 1 2 = 1 ∧ inFlightAfterLaunch 1 2 = 2 ∧
      ¬ inFlightAfterLaunch 1 2 ≤ 1 := by
  decide

/-- C2 (counterexample): with `MAX_CONCURRENCY = 1` and 3 candidate
records, `MigrateStore` performs only 2 receives on `oneDone` in total
(one mid-loop, one after the loop) although 3 workers are launched, so
it returns without having drained all outstanding workers. -/
theorem migrateStore_no_drain_cex :
    totalReceives 1 3 = 2 ∧ totalReceives 1 3 < 3 := by
  decide

/-- C2 (amended): when no worker reports a fatal error, `MigrateStore`
returns after one completion receive inside the loop (taken only when
the candidate count exceeds the concurrency limit) plus one final
receive — not after all launched workers have completed — and its
successful return value is the bare `ok ()` of the Go `error` result,
carrying no migrated/skipped counts. -/
theorem migrateStore_return_amended :
    (∀ N F, totalReceives N F = (if N < F then 1 else 0) + 1) ∧
    (∀ sb db sn cat env, (migrateStoreTrace sb db sn cat env).2 = Except.ok () ∨
      ∃ e, (migrateStoreTrace sb db sn cat env).2 = Except.error e) := by
  constructor
  · intro N F
    rw [totalReceives, loopReceivesTotal_eq]
  · intro sb db sn cat env
    cases he : (migrateStoreTrace sb db sn cat env).2 with
    | ok u => cases u; exact Or.inl rfl
    | error e => exact Or.inr ⟨e, rfl⟩

/-- C6 (code bug): when the candidate query matches zero records the
driver's `Find` succeeds with an empty cursor (`mongo.ErrNoDocuments`
is never produced by `Find`, only by single-result decodes), so
`getFiles` returns an empty list and no error; `MigrateStore` then
launches no workers, yet still performs its final receive on `oneDone`,
which no goroutine will ever satisfy: the run hangs instead of failing
with the intended "No files found" error. -/
theorem migrateStore_zero_candidates_blocks :
    (getFiles "Uploads" ⟨.ok (), .ok "ns", .ok []⟩).2 = .ok [] ∧
    (∀ N, migrateStoreFinalWaitBlocked N 0 = true) := by
  refine ⟨rfl, fun N => ?_⟩
  simp [migrateStoreFinalWaitBlocked, totalReceives, loopReceivesTotal]

/-- C3: for any record that reaches the fetch (completion flag true), a
download failing with the not-found sentinel is skipped for both values
of the skip-errors flag and never sent to the error channel, while any
other download error is fatal when the flag is unset and skipped when
it is set. -/
theorem migrateStore_fetch_failure_policy (skipErrors : Bool)
    (storeName uniqueID destType p e : String) (file : File)
    (h : file.complete = true) (pushErr updateErr : Option String) :
    (migrateStoreWorker skipErrors storeName uniqueID destType file
        (p, some .errNotFound) pushErr updateErr).outcome
      = .skipped .noCorrespondingFile ∧
    (migrateStoreWorker false storeName uniqueID destType file
        (p, some (.other e)) pushErr updateErr).outcome
      = .fatal e ∧
    (migrateStoreWorker true storeName uniqueID destType file
        (p, some (.other e)) pushErr updateErr).outcome
      = .skipped .noCorrespondingFile := by
  refine ⟨?_, ?_, ?_⟩ <;> simp [migrateStoreWorker, h]

/-- C3 witness: the policy evaluated on a concrete complete record. -/
theorem migrateStore_fetch_failure_policy_witness :
    (migrateStoreWorker false "Uploads" "ns" "AmazonS3" sampleFile
        ("", some .errNotFound) none none).outcome
      = .skipped .noCorrespondingFile ∧
    (migrateStoreWorker false "Uploads" "ns" "AmazonS3" sampleFile
        ("", some (.other "io error")) none none).outcome
      = .fatal "io error" ∧
    (migrateStoreWorker true "Uploads" "ns" "AmazonS3" sampleFile
        ("", some (.other "io error")) none none).outcome
      = .skipped .noCorrespondingFile :=
  migrateStore_fetch_failure_policy false "Uploads" "ns" "AmazonS3" "" "io error"
    sampleFile rfl none none

/-- C9: a record whose completion flag is false is skipped by all three
operating modes with no download attempt, no upload attempt and no
catalog update. -/
theorem incomplete_record_untouched (file : File) (h : file.complete = false)
    (skipErrors : Bool) (storeName uniqueID destType : String)
    (download : String × Option StoreErr) (pushErr updateErr : Option String)
    (localFileFound : Bool) :
    migrateStoreWorker skipErrors storeName uniqueID destType file download pushErr updateErr
      = ⟨.skipped .incomplete, false, none, none⟩ ∧
    downloadAllWorker skipErrors file download = (.skipped .incomplete, false) ∧
    (∃ r, uploadAllStep storeName uniqueID destType file localFileFound pushErr updateErr
      = (.skipped r, false, none)) := by
  refine ⟨?_, ?_, ?_⟩
  · simp [migrateStoreWorker, h]
  · simp [downloadAllWorker, h]
  · cases localFileFound with
    | false => exact ⟨.localFileMissing, by simp [uploadAllStep]⟩
    | true => exact ⟨.incomplete, by simp [uploadAllStep, h]⟩

/-- C9 witness: the three modes evaluated on a concrete incomplete
record. -/
theorem incomplete_record_untouched_witness :
    migrateStoreWorker false "Uploads" "ns" "AmazonS3" { sampleFile with complete := false }
        ("", none) none none
      = ⟨.skipped .incomplete, false, none, none⟩ ∧
    downloadAllWorker false { sampleFile with complete := false } ("", none)
      = (.skipped .incomplete, false) ∧
    (∃ r, uploadAllStep "Uploads" "ns" "AmazonS3" { sampleFile with complete := false }
        true none none = (.skipped r, false, none)) :=
  incomplete_record_untouched { sampleFile with complete := false } rfl
    false "Uploads" "ns" "AmazonS3" ("", none) none none true

/-- C10: `GridFSProvider.Download` returns the empty path and no error
on every input; consequently a `MigrateStore` worker fed by a GridFS
source never skips a record through the "No corresponding file" branch,
and whenever the destination push is reached its local-path argument is
the empty string. -/
theorem gridFS_source_pipeline (c storeName uniqueID destType : String)
    (file : File) (skipErrors : Bool) (pushErr updateErr : Option String) :
    GridFSProvider.Download c file = ("", none) ∧
    (migrateStoreWorker skipErrors storeName uniqueID destType file
        (GridFSProvider.Download c file) pushErr updateErr).outcome
      ≠ RecordOutcome.skipped SkipReason.noCorrespondingFile ∧
    (migrateStoreWorker skipErrors storeName uniqueID destType file
        (GridFSProvider.Download c file) pushErr updateErr).pushed
      = (if file.complete then
           some (migrateStoreObjectPath storeName uniqueID destType file, "", file.type)
         else none) := by
  refine ⟨rfl, ?_, ?_⟩ <;>
    cases hc : file.complete <;> cases pushErr <;> cases updateErr <;>
      simp [migrateStoreWorker, GridFSProvider.Download, migrateStoreObjectPath, hc]

/-- C4 counterexample: migrating a record to a `FileSystem` destination
leaves the previously populated AmazonS3 sub-document intact and flags
nothing for removal, even though the backend descriptor is rewritten to
`FileSystem:Uploads` — so it is not the case that for every destination
kind exactly the destination's sub-field is populated and all others
are cleared and unset. -/
theorem fixFileForUpload_fileSystem_cex :
    (fixFileForUpload "FileSystem" "Uploads" staleS3File "obj").1.amazonS3
      = { path := "old/path" } ∧
    (fixFileForUpload "FileSystem" "Uploads" staleS3File "obj").2 = "" ∧
    (fixFileForUpload "FileSystem" "Uploads" staleS3File "obj").1.store
      = "FileSystem:Uploads" := by
  decide

/-- C4 (amended): for the AmazonS3 and GoogleCloudStorage destination
kinds the mutated record has exactly the destination's sub-field
populated with the computed path, the other backend's sub-field cleared
and returned as the field to unset; for the FileSystem kind (and any
other kind) both sub-fields are left exactly as they were and nothing
is flagged for removal.  For every kind the served URL and path are the
synthetic reference `/ufs/{K}:{category}/{recordId}/{name}` and the
backend descriptor is `{K}:{category}`. -/
theorem fixFileForUpload_mutation (destType storeName objectPath : String) (file : File) :
    (fixFileForUpload destType storeName file objectPath).1.url
      = "/ufs/" ++ destType ++ ":" ++ storeName ++ "/" ++ file.id ++ "/" ++ file.name ∧
    (fixFileForUpload destType storeName file objectPath).1.path
      = "/ufs/" ++ destType ++ ":" ++ storeName ++ "/" ++ file.id ++ "/" ++ file.name ∧
    (fixFileForUpload destType storeName file objectPath).1.store
      = destType ++ ":" ++ storeName ∧
    (fixFileForUpload destType storeName file objectPath).1.amazonS3
      = (if destType = "AmazonS3" then { path := objectPath }
         else if destType = "GoogleCloudStorage" then { path := "" }
         else file.amazonS3) ∧
    (fixFileForUpload destType storeName file objectPath).1.googleStorage
      = (if destType = "AmazonS3" then { path := "" }
         else if destType = "GoogleCloudStorage" then { path := objectPath }
         else file.googleStorage) ∧
    (fixFileForUpload destType storeName file objectPath).2
      = (if destType = "AmazonS3" then "GoogleStorage"
         else if destType = "GoogleCloudStorage" then "AmazonS3"
         else "") := by
  by_cases h1 : destType = "AmazonS3" <;> by_cases h2 : destType = "GoogleCloudStorage" <;>
    simp [fixFileForUpload, h1, h2]

/-- C5: the destination path the `MigrateStore` pipeline computes.  For
category Uploads it is `{namespace}/uploads/{roomId}/{userId}/{recordId}`
with empty roomId and userId replaced by the literal "undefined"; for
category Avatars it is `{namespace}/avatars/{userId}` with the same
default for userId; and for a FileSystem destination it is exactly the
record id whatever the category. -/
theorem migrateStore_objectPath_spec (uniqueID destType : String) (file : File) :
    migrateStoreObjectPath "Uploads" uniqueID destType file
      = (if destType = "FileSystem" then file.id
         else uniqueID ++ "/" ++ "uploads" ++ "/"
              ++ (if file.rid = "" then "undefined" else file.rid) ++ "/"
              ++ (if file.userId = "" then "undefined" else file.userId) ++ "/" ++ file.id) ∧
    migrateStoreObjectPath "Avatars" uniqueID destType file
      = (if destType = "FileSystem" then file.id
         else uniqueID ++ "/" ++ "avatars" ++ "/"
              ++ (if file.userId = "" then "undefined" else file.userId)) ∧
    (∀ storeName, migrateStoreObjectPath storeName uniqueID "FileSystem" file = file.id) := by
  refine ⟨?_, ?_, fun storeName => ?_⟩
  · by_cases hr : file.rid = "" <;> by_cases hu : file.userId = "" <;>
      simp [migrateStoreObjectPath, applyUndefinedDefaults, getObjectPath,
        lowerGo_uploads, hr, hu]
  · by_cases hu : file.userId = "" <;>
      simp [migrateStoreObjectPath, applyUndefinedDefaults, getObjectPath,
        lowerGo_avatars, hu]
  · simp [migrateStoreObjectPath, getObjectPath, applyUndefinedDefaults_id]

/-- C7 counterexample: with `MAX_CONCURRENCY` set to the non-integer
"abc" and one candidate record, the run fails at the Atoi parse, but
the catalog connection, the namespace read and the candidate query have
all already been performed — so it is not the case that no catalog
work happens before the value is parsed and rejected. -/
theorem migrateStore_env_parse_after_query_cex :
    (migrateStoreTrace true true "Uploads" ⟨.ok (), .ok "ns", .ok [sampleFile]⟩
        (some "abc")).2 = .error "invalid syntax" ∧
    (migrateStoreTrace true true "Uploads" ⟨.ok (), .ok "ns", .ok [sampleFile]⟩
        (some "abc")).1 = [.connectDB, .readNamespace, .findCandidates] := by
  exact ⟨rfl, rfl⟩

/-- C7 (amended): an invalid `MAX_CONCURRENCY` value fails the run
before any worker is launched, but only after the catalog connection,
the namespace read and the candidate query have been performed, because
the environment variable is parsed after `getFiles` returns. -/
theorem migrateStore_env_invalid_amended (storeName v uid : String)
    (cat : CatalogResponses) (files : List File) (hv : atoi v = none)
    (hc : cat.connect = .ok ()) (hu : cat.uniqueID = .ok uid) (hf : cat.find = .ok files)
    (hs : storeName = "Uploads" ∨ storeName = "Avatars") :
    (migrateStoreTrace true true storeName cat (some v)).2 = .error "invalid syntax" ∧
    (migrateStoreTrace true true storeName cat (some v)).1
      = [.connectDB, .readNamespace, .findCandidates] := by
  rcases hs with hs | hs <;> subst hs <;>
    simp [migrateStoreTrace, getFiles, hc, hu, hf, hv]

/-- C7 witness: the amended claim evaluated at a concrete run with
`MAX_CONCURRENCY = "2x"`. -/
theorem migrateStore_env_invalid_amended_witness :
    (migrateStoreTrace true true "Avatars" ⟨.ok (), .ok "ns", .ok []⟩ (some "2x")).2
      = .error "invalid syntax" ∧
    (migrateStoreTrace true true "Avatars" ⟨.ok (), .ok "ns", .ok []⟩ (some "2x")).1
      = [.connectDB, .readNamespace, .findCandidates] :=
  migrateStore_env_invalid_amended "Avatars" "2x" "ns" ⟨.ok (), .ok "ns", .ok []⟩ []
    (by decide) rfl rfl rfl (Or.inr rfl)

/-- C8: a record rewritten by `fixFileForUpload` for a destination kind
different from the source kind no longer matches the candidate query of
a fresh offset-free run, because its backend descriptor now reads
`{destination-kind}:{category}` while the query selects on
`{source-kind}:{category}`. -/
theorem migrated_record_not_reselected (sourceType destType storeName objectPath : String)
    (h : sourceType ≠ destType) (file : File) :
    candidateQuery sourceType storeName none
      ((fixFileForUpload destType storeName file objectPath).1) = false := by
  have hs : (fixFileForUpload destType storeName file objectPath).1.store
      = destType ++ ":" ++ storeName := by
    simp [fixFileForUpload]
  simp only [candidateQuery, hs, Bool.and_true]
  rw [beq_eq_false_iff_ne]
  intro heq
  exact h (string_append_cancel_right sourceType destType (":" ++ storeName)
    (by simpa [String.append_assoc] using heq.symm))

/-- C8 witness: a concrete GridFS record migrated to AmazonS3 is not
selected by a rerun's GridFS query. -/
theorem migrated_record_not_reselected_witness :
    candidateQuery "GridFS" "Uploads" none
      ((fixFileForUpload "AmazonS3" "Uploads" sampleFile "ns/uploads/u/u/id1").1) = false :=
  migrated_record_not_reselected "GridFS" "AmazonS3" "Uploads" "ns/uploads/u/u/id1"
    (by decide) sampleFile

end FilestoreMigrator
